import Mathlib

/-!
Verification of the PianoNet core: the `NoteArray` encode/decode transform
(`pianonet/core/note_array.py`) and the resumable training-run state machine
(`pianonet/training_utils/run.py`), shallowly embedded in Lean.

Conventions of the embedding:
* a pianoroll's 2-D boolean key-state matrix is a `List (List Bool)`
  (rows = time steps, columns = keys, full width 128);
* a flat note array is a `List Bool`;
* Python floats used for `resolution` are embedded as rationals `ℚ`
  (the code only ever compares them with `>` and `!=`, exactly);
* Python exceptions become `Except String`, carrying the message raised;
* the pianoroll time-stretch primitive lives in `pianonet/core/pianoroll.py`,
  an external collaborator outside the verified core; the embedding takes it
  as an explicit function argument `stretch : ℚ → List (List Bool) → List (List Bool)`
  so that every theorem holds for any behaviour of that collaborator.
-/

namespace PianoNet

/-- The product of `NoteArray.__init__`: the fields the constructor stores on
`self` (`min_key_index`, `num_keys`, `resolution`, `time_steps`, `array`). -/
structure NoteArray where
  min_key_index : Nat
  num_keys : Nat
  resolution : ℚ
  time_steps : Nat
  array : List Bool
  deriving Repr, DecidableEq

/-- Column crop of a single pianoroll row: `row[min_key_index : min_key_index + num_keys]`
(the slice taken at `note_array.py` line 60). -/
def cropRow (min_key_index num_keys : Nat) (row : List Bool) : List Bool :=
  (row.drop min_key_index).take num_keys

/-- Embedding of `NoteArray.__init__` (`note_array.py` lines 20–62), check for
check in source order:
1. both initializers supplied → `Exception` (line 32);
2. `min_key_index + num_keys > 128` → `Exception` (line 35);
3. `resolution > 1.0` → `Exception` (line 39);
4. flat-array branch (line 46): length not a multiple of `num_keys` →
   `Exception` (line 47; `num_keys = 0` is Python's `ZeroDivisionError`),
   otherwise `time_steps = len / num_keys` and the buffer is copied;
5. pianoroll branch (line 52): `None` pianoroll → `AttributeError` on
   `pianoroll.get_copy()`; otherwise optional stretch when `resolution != 1.0`,
   then crop columns and flatten row-major.
-/
def NoteArray.init (stretch : ℚ → List (List Bool) → List (List Bool))
    (pianoroll : Option (List (List Bool))) (flat_array : Option (List Bool))
    (min_key_index : Nat := 0) (num_keys : Nat := 128) (resolution : ℚ := 1) :
    Except String NoteArray :=
  if pianoroll.isSome ∧ flat_array.isSome then
    .error "Cannot use both a pianoroll and flat_array initializer. Choose one."
  else if min_key_index + num_keys > 128 then
    .error "(min_key_index + num_keys) is greater than 128"
  else if resolution > 1 then
    .error "Provided resolution is greater than 1.0."
  else
    match flat_array with
    | some arr =>
      if num_keys = 0 then
        .error "ZeroDivisionError: integer division or modulo by zero"
      else if arr.length % num_keys ≠ 0 then
        .error "flat_array contains a timestep with a partial key state. This is not allowed."
      else
        .ok { min_key_index := min_key_index, num_keys := num_keys,
              resolution := resolution, time_steps := arr.length / num_keys,
              array := arr }
    | none =>
      match pianoroll with
      | none => .error "AttributeError: NoneType object has no attribute get_copy"
      | some roll =>
        let roll := if resolution ≠ 1 then stretch resolution roll else roll
        .ok { min_key_index := min_key_index, num_keys := num_keys,
              resolution := resolution, time_steps := roll.length,
              array := (roll.map (cropRow min_key_index num_keys)).flatten }

/-- Embedding of `NoteArray.get_pianoroll` (`note_array.py` lines 64–82):
reshape the flat buffer into `(time_steps, num_keys)` rows, write that block
into a zero-filled `(time_steps, 128)` matrix at column offset
`min_key_index`, and stretch back by `1.0 / resolution` unless the resolution
is exactly `1.0`. Row `t` of the reshape is `array[t*num_keys : (t+1)*num_keys]`.
The inverse stretch is the same external collaborator, passed as `stretchInv`. -/
def NoteArray.get_pianoroll (stretchInv : ℚ → List (List Bool) → List (List Bool))
    (na : NoteArray) : List (List Bool) :=
  let reshapedRow : Nat → List Bool := fun t => (na.array.drop (t * na.num_keys)).take na.num_keys
  let full : List (List Bool) :=
    (List.range na.time_steps).map (fun t =>
      (List.range 128).map (fun k =>
        if na.min_key_index ≤ k ∧ k < na.min_key_index + na.num_keys then
          (reshapedRow t).getD (k - na.min_key_index) false
        else false))
  if na.resolution = 1 then full else stretchInv (1 / na.resolution) full

/-- Embedding of `NoteArray.get_length_in_notes` (lines 84–89). -/
def NoteArray.get_length_in_notes (na : NoteArray) : Nat :=
  na.array.length

/-- Embedding of `NoteArray.get_length_in_timesteps` (lines 91–96). -/
def NoteArray.get_length_in_timesteps (na : NoteArray) : Nat :=
  na.get_length_in_notes / na.num_keys

/-! ## The resumable run state machine (`pianonet/training_utils/run.py`)

File paths are embedded as strings; `os.path.join(a, b)` for an absolute `a`
and a relative `b` is `a ++ "/" ++ b`. JSON dictionaries are embedded as
structures: an optional key is an `Option` field, and Python's `del d[k]`
raises `KeyError` when the key is absent, hence the `Except` result of the
resume transition. -/

/-- The persisted `state.json` record: the dictionary
`{'run_index': ..., 'status': ...}` built at `run.py` lines 54–57. -/
structure RunState where
  run_index : Nat
  status : String
  deriving Repr, DecidableEq

/-- The `model_initializer` sub-dictionary of the model description
(`run.py` lines 118–127): a builder script path plus its parameters. -/
structure ModelInitializer where
  path : String
  params : String
  deriving Repr, DecidableEq

/-- The `model_description` section of `run_description.json`
(`run.py` lines 49–50 and 116–145): a model path (empty string means
"build new") and an optional build-from-scratch directive. -/
structure ModelDescription where
  model_path : String
  model_initializer : Option ModelInitializer
  deriving Repr, DecidableEq

/-- The slice of `run_description.json` that the resume transition reads or
writes: only `model_description` is touched by `Run.__init__` (lines 49–50);
the data/training/validation sections are passed through to `execute`
unchanged and play no role in the claims about construction. -/
structure RunDescription where
  model_description : ModelDescription
  deriving Repr, DecidableEq

/-- `Run.get_index_prepended_file_base_name` (`run.py` lines 97–98):
`str(index) + "_" + file_base_name`. -/
def get_index_prepended_file_base_name (index : Nat) (file_base_name : String) : String :=
  toString index ++ "_" ++ file_base_name

/-- `Run.get_full_path_from_run_file_name` (`run.py` lines 94–95):
`os.path.join(self.path, file_name)`. -/
def get_full_path_from_run_file_name (path file_name : String) : String :=
  path ++ "/" ++ file_name

/-- `Run.get_state_path` (`run.py` lines 64–69):
`os.path.join(self.path, 'state.json')`. -/
def get_state_path (path : String) : String :=
  get_full_path_from_run_file_name path "state.json"

/-- `Run.get_previous_run_index_prefixed_path` (`run.py` lines 100–106),
with the run index passed explicitly in place of `self.state['run_index']`. -/
def get_previous_run_index_prefixed_path (path : String) (run_index : Nat)
    (file_base_name : String) : String :=
  get_full_path_from_run_file_name path
    (get_index_prepended_file_base_name (run_index - 1) file_base_name)

/-- `Run.get_run_index_prefixed_path` (`run.py` lines 108–114). -/
def get_run_index_prefixed_path (path : String) (run_index : Nat)
    (file_base_name : String) : String :=
  get_full_path_from_run_file_name path
    (get_index_prepended_file_base_name run_index file_base_name)

/-- Embedding of the resume-or-start decision of `Run.__init__`
(`run.py` lines 42–57). `stateFile` is the content of `state.json` when that
file exists, `none` when it does not. In the resume branch the code, in
order: loads the state, increments `run_index` by 1, computes the previous
index's `trained.model` path, overwrites `model_description['model_path']`
with it, and executes `del model_description['model_initializer']` — which
raises `KeyError` when the key is absent, so no `Run` is constructed in that
case. Returns the in-memory state and the (possibly rewritten) run
description with which `execute` is then entered. -/
def run_init_state (path : String) (stateFile : Option RunState)
    (run_description : RunDescription) : Except String (RunState × RunDescription) :=
  match stateFile with
  | some loaded =>
    let st : RunState := { loaded with run_index := loaded.run_index + 1 }
    let previous_model_path := get_previous_run_index_prefixed_path path st.run_index "trained.model"
    match run_description.model_description.model_initializer with
    | none => .error "KeyError: model_initializer"
    | some _ =>
      .ok (st, { run_description with
                 model_description := { model_path := previous_model_path,
                                        model_initializer := none } })
  | none =>
    .ok ({ run_index := 0, status := "running" }, run_description)

/-- One file artifact written into the run directory: its full path and which
write in `run.py` produced it. -/
structure Artifact where
  path : String
  kind : String
  deriving Repr, DecidableEq

/-- Embedding of the composite checkpoint built by
`Run.checkpoint_method_creator` (`run.py` lines 170–178): each invocation
writes, in order, the state record via `save_state` (to `get_state_path`,
lines 74–79), the model snapshot to the run-index-prefixed `trained.model`,
and the generator cursor to the run-index-prefixed `generator_state.gs`. -/
def checkpoint_method (path : String) (st : RunState) : List Artifact :=
  [ { path := get_state_path path, kind := "state" },
    { path := get_run_index_prefixed_path path st.run_index "trained.model", kind := "model" },
    { path := get_run_index_prefixed_path path st.run_index "generator_state.gs",
      kind := "generator_state" } ]

/-- The file artifacts `Run.fetch_model` (`run.py` lines 116–157) writes,
following its branch structure: when `model_path` is empty and a
`model_initializer` is present, it writes the parameters payload to the
**unprefixed** `model_parameters` path (lines 124–127; the file is removed
again at line 136, but the write happens) and has the external build
subprocess write the run-index-prefixed `initial.model` (lines 123 and
129–134); when `model_path` is non-empty it only loads an existing snapshot
(lines 140–143), writing nothing; when neither is usable it raises
(line 145), aborting `execute` before any further write, so a successful run
writes nothing on that branch either. -/
def fetch_model_artifacts (path : String) (st : RunState) (md : ModelDescription) :
    List Artifact :=
  if md.model_path = "" then
    match md.model_initializer with
    | some _ =>
      [ { path := get_full_path_from_run_file_name path "model_parameters",
          kind := "model_parameters" },
        { path := get_run_index_prefixed_path path st.run_index "initial.model",
          kind := "initial_model" } ]
    | none => []
  else []

/-- The file artifacts `Run.execute` (`run.py` lines 180–277) writes on a
successful run: the log file the `Logger` appends to throughout (the
**unprefixed** `output.log`, opened at line 30 and written by every
`self.log` call inside `execute`), the run description copy saved at line
191 (to the run-index-prefixed `run_desciption.json`, spelling as in the
source), the `fetch_model` writes (line 197), the per-step model snapshots
of the `ModelCheckpoint` callback (line 256, to the run-index-prefixed
`trained.model`; `snapshots` is how many fire), and the composite
checkpoints (`checkpoints` is how many fire). The writes interleave inside
the external `model.fit` call; this list fixes one order, which no claim
depends on. -/
def execute_artifacts (path : String) (st : RunState) (md : ModelDescription)
    (snapshots checkpoints : Nat) : List Artifact :=
  { path := get_full_path_from_run_file_name path "output.log", kind := "log" } ::
  { path := get_run_index_prefixed_path path st.run_index "run_desciption.json",
    kind := "run_description" } ::
  (fetch_model_artifacts path st md ++
   (List.replicate snapshots
     { path := get_run_index_prefixed_path path st.run_index "trained.model",
       kind := "model" } ++
    (List.replicate checkpoints (checkpoint_method path st)).flatten))

/-- Embedding of the effect of a successful `Run.execute` call on the run
state record, paired with the artifacts it writes (`md` is the model
description it resolves the model from): no statement anywhere in `execute`
(lines 180–277, which end at the `model.fit` call), nor in the callbacks it
installs (`checkpoint_method` only saves the state, lines 170–178), assigns
to `self.state` or to any of its entries, so the in-memory and
last-persisted state at the end of a successful `execute` equal the state
with which it was entered. -/
def run_execute (path : String) (st : RunState) (md : ModelDescription)
    (snapshots checkpoints : Nat) : RunState × List Artifact :=
  (st, execute_artifacts path st md snapshots checkpoints)

/-! ## Helper lemmas -/

/- Extracting row `t` back out of the flattening of a list of equal-length
rows: `flatten[t*n : t*n + n]` is row `t`. -/
theorem flatten_drop_take (n : Nat) :
    ∀ (L : List (List Bool)) (t : Nat), (∀ r ∈ L, r.length = n) → t < L.length →
      ((L.flatten).drop (t * n)).take n = L.getD t [] := by
  intro L
  induction L with
  | nil => intro t _ ht; exact absurd ht (by simp)
  | cons r rs ih =>
    intro t hlen ht
    have hr : r.length = n := hlen r (by simp)
    cases t with
    | zero =>
      have h0 : (r ++ rs.flatten).take n = r := List.take_left' hr
      simpa using h0
    | succ t =>
      have hmem : ∀ s ∈ rs, s.length = n := fun s hs => hlen s (by simp [hs])
      have h1 : ((r :: rs).flatten).drop ((t + 1) * n) = (rs.flatten).drop (t * n) := by
        simp only [List.flatten_cons]
        rw [Nat.succ_mul, Nat.add_comm (t * n) n, ← hr]
        exact List.drop_append _
      rw [h1]
      simpa using ih t hmem (by simpa using ht)

/- Length of a cropped row of full width 128. -/
theorem cropRow_length (mk nk : Nat) (row : List Bool)
    (hrow : row.length = 128) (hkr : mk + nk ≤ 128) :
    (cropRow mk nk row).length = nk := by
  simp [cropRow, hrow]
  omega

/- A cropped row's entry `j` is the source row's entry `mk + j`. -/
theorem cropRow_getD (mk nk j : Nat) (row : List Bool)
    (hrow : row.length = 128) (hkr : mk + nk ≤ 128) (hj : j < nk) :
    (cropRow mk nk row).getD j false = row.getD (mk + j) false := by
  have hlen : (cropRow mk nk row).length = nk := cropRow_length mk nk row hrow hkr
  have hj' : j < (cropRow mk nk row).length := by omega
  have hk' : mk + j < row.length := by omega
  rw [List.getD_eq_getElem _ _ hj', List.getD_eq_getElem _ _ hk']
  simp only [cropRow]
  rw [List.getElem_take, List.getElem_drop]

/-! ## Claim theorems -/

/-- C1: for every source key-state matrix (rows of full width 128), every
`min_key_index` and `num_keys` with `min_key_index + num_keys ≤ 128`, and
`resolution = 1.0`, decoding the encoding (`get_pianoroll` after
construction from the matrix) yields a matrix with the original's values at
every column in `[min_key_index, min_key_index + num_keys)` and `false` at
every column outside that range, for any behaviour of the external stretch
primitive (which is never invoked at resolution 1). -/
theorem roundtrip_preserves_kept_keys
    (stretch stretchInv : ℚ → List (List Bool) → List (List Bool))
    (M : List (List Bool)) (mk nk : Nat)
    (hrows : ∀ r ∈ M, r.length = 128) (hkr : mk + nk ≤ 128) :
    ∃ na : NoteArray,
      NoteArray.init stretch (some M) none mk nk 1 = .ok na ∧
      (na.get_pianoroll stretchInv).length = M.length ∧
      (∀ t, t < M.length → ∀ k, k < 128 →
        ((na.get_pianoroll stretchInv).getD t []).getD k false =
          if mk ≤ k ∧ k < mk + nk then (M.getD t []).getD k false else false) := by
  refine ⟨⟨mk, nk, 1, M.length, (M.map (cropRow mk nk)).flatten⟩, ?_, ?_, ?_⟩
  · simp only [NoteArray.init]
    rw [if_neg (by simp), if_neg (by omega), if_neg (by norm_num)]
    simp
  · simp [NoteArray.get_pianoroll]
  · intro t ht k hk
    simp only [NoteArray.get_pianoroll, if_true, eq_self_iff_true]
    have ht' : t < ((List.range M.length).map (fun t =>
        (List.range 128).map (fun k =>
          if mk ≤ k ∧ k < mk + nk then
            ((((M.map (cropRow mk nk)).flatten).drop (t * nk)).take nk).getD (k - mk) false
          else false))).length := by simpa using ht
    rw [List.getD_eq_getElem _ _ ht']
    rw [List.getElem_map, List.getElem_range]
    have hk' : k < ((List.range 128).map (fun k =>
        if mk ≤ k ∧ k < mk + nk then
          ((((M.map (cropRow mk nk)).flatten).drop (t * nk)).take nk).getD (k - mk) false
        else false)).length := by simpa using hk
    rw [List.getD_eq_getElem _ _ hk']
    rw [List.getElem_map, List.getElem_range]
    by_cases hin : mk ≤ k ∧ k < mk + nk
    · rw [if_pos hin, if_pos hin]
      have hmem : ∀ r ∈ M.map (cropRow mk nk), r.length = nk := by
        intro r hr
        obtain ⟨s, hs, rfl⟩ := List.mem_map.mp hr
        exact cropRow_length mk nk s (hrows s hs) hkr
      rw [flatten_drop_take nk (M.map (cropRow mk nk)) t hmem (by simpa using ht)]
      have htM : t < (M.map (cropRow mk nk)).length := by simpa using ht
      rw [List.getD_eq_getElem _ _ htM, List.getElem_map]
      have hMt : (M.getD t []) = M[t] := List.getD_eq_getElem _ _ ht
      rw [hMt]
      have hj : k - mk < nk := by omega
      rw [cropRow_getD mk nk (k - mk) (M[t]) (hrows _ (List.getElem_mem ht)) hkr hj]
      rw [Nat.add_sub_cancel' hin.1]
    · rw [if_neg hin, if_neg hin]

/-- C1 witness: the round trip at a concrete 2×128 matrix with
`min_key_index = 21`, `num_keys = 88`, `resolution = 1`. -/
theorem roundtrip_preserves_kept_keys_witness :
    ∃ na : NoteArray,
      NoteArray.init (fun _ a => a)
        (some [List.replicate 128 true, List.replicate 128 false]) none 21 88 1 = .ok na ∧
      (na.get_pianoroll (fun _ a => a)).length =
        [List.replicate 128 true, List.replicate 128 false].length ∧
      (∀ t, t < [List.replicate 128 true, List.replicate 128 false].length → ∀ k, k < 128 →
        ((na.get_pianoroll (fun _ a => a)).getD t []).getD k false =
          if 21 ≤ k ∧ k < 21 + 88 then
            ([List.replicate 128 true, List.replicate 128 false].getD t []).getD k false
          else false) :=
  roundtrip_preserves_kept_keys (fun _ a => a) (fun _ a => a)
    [List.replicate 128 true, List.replicate 128 false] 21 88
    (by simp) (by omega)

/-- C9: supplying both a source matrix and a pre-flattened buffer always
fails, with the ambiguity error raised at `note_array.py` line 33, whatever
the other parameters are. -/
theorem dual_initializer_fails
    (stretch : ℚ → List (List Bool) → List (List Bool))
    (P : List (List Bool)) (F : List Bool) (mk nk : Nat) (res : ℚ) :
    NoteArray.init stretch (some P) (some F) mk nk res =
      .error "Cannot use both a pianoroll and flat_array initializer. Choose one." := by
  simp [NoteArray.init]

/-- C10: supplying neither a source matrix nor a pre-flattened buffer always
fails (with `AttributeError` from `pianoroll.get_copy()` on `None` when the
earlier parameter checks pass); no `NoteArray` is ever produced. -/
theorem no_initializer_fails
    (stretch : ℚ → List (List Bool) → List (List Bool))
    (mk nk : Nat) (res : ℚ) :
    ∃ msg, NoteArray.init stretch none none mk nk res = .error msg := by
  simp only [NoteArray.init]
  rw [if_neg (by simp)]
  split
  · exact ⟨_, rfl⟩
  · split
    · exact ⟨_, rfl⟩
    · exact ⟨_, rfl⟩

/-- C8: constructing from a pre-flattened buffer (with valid key-range
parameters, a positive key count and the default resolution 1.0) fails with
the partial-key-state error when the buffer length is not a multiple of
`num_keys`, and otherwise succeeds with `time_steps = length / num_keys` and
the buffer stored unchanged. -/
theorem flat_buffer_construction
    (stretch : ℚ → List (List Bool) → List (List Bool))
    (buf : List Bool) (mk nk : Nat) (hnk : 0 < nk) (hkr : mk + nk ≤ 128) :
    (buf.length % nk ≠ 0 →
      NoteArray.init stretch none (some buf) mk nk 1 =
        .error "flat_array contains a timestep with a partial key state. This is not allowed.") ∧
    (buf.length % nk = 0 →
      ∃ na : NoteArray, NoteArray.init stretch none (some buf) mk nk 1 = .ok na ∧
        na.time_steps = buf.length / nk ∧ na.array = buf) := by
  constructor
  · intro hmod
    simp only [NoteArray.init]
    rw [if_neg (by simp), if_neg (by omega), if_neg (by norm_num),
      if_neg (by omega), if_pos hmod]
  · intro hmod
    refine ⟨⟨mk, nk, 1, buf.length / nk, buf⟩, ?_, rfl, rfl⟩
    simp only [NoteArray.init]
    rw [if_neg (by simp), if_neg (by omega), if_neg (by norm_num),
      if_neg (by omega), if_neg (by omega)]

/-- C8 witness: a flat buffer of length 176 with `num_keys = 88` yields
`time_steps = 2`, and a buffer of length 3 with `num_keys = 2` fails. -/
theorem flat_buffer_construction_witness :
    (NoteArray.init (fun _ a => a) none (some (List.replicate 3 true)) 0 2 1 =
      .error "flat_array contains a timestep with a partial key state. This is not allowed.") ∧
    (∃ na : NoteArray,
      NoteArray.init (fun _ a => a) none (some (List.replicate 176 true)) 0 88 1 = .ok na ∧
        na.time_steps = (List.replicate 176 true).length / 88 ∧
        na.array = List.replicate 176 true) :=
  ⟨(flat_buffer_construction (fun _ a => a) (List.replicate 3 true) 0 2
      (by norm_num) (by norm_num)).1 (by norm_num [List.length_replicate]),
   (flat_buffer_construction (fun _ a => a) (List.replicate 176 true) 0 88
      (by norm_num) (by norm_num)).2 (by norm_num [List.length_replicate])⟩

/-- C5 counterexample: the constructor performs no lower-bound check on the
resolution — constructing from an empty flat buffer with `resolution = 0`
succeeds and returns a `NoteArray` whose resolution is `0`, which is outside
`(0, 1]`; so "construction fails when resolution ≤ 0" is false. -/
theorem resolution_zero_accepted :
    NoteArray.init (fun _ a => a) none (some []) 0 128 0 =
      .ok { min_key_index := 0, num_keys := 128, resolution := 0,
            time_steps := 0, array := [] } := rfl

/-- C5 amended: only the upper bound is enforced — construction fails
whenever `resolution > 1.0`, and every `NoteArray` the constructor returns
has `resolution ≤ 1.0`; the lower bound `0 < resolution` is not validated. -/
theorem resolution_upper_bound_only
    (stretch : ℚ → List (List Bool) → List (List Bool))
    (pianoroll : Option (List (List Bool))) (flat_array : Option (List Bool))
    (mk nk : Nat) (res : ℚ) :
    (res > 1 →
      ∃ msg, NoteArray.init stretch pianoroll flat_array mk nk res = .error msg) ∧
    (∀ na : NoteArray, NoteArray.init stretch pianoroll flat_array mk nk res = .ok na →
      na.resolution = res ∧ res ≤ 1) := by
  constructor
  · intro hres
    simp only [NoteArray.init]
    repeat' split
    all_goals exact ⟨_, rfl⟩
  · intro na h
    simp only [NoteArray.init] at h
    split at h
    · exact absurd h (by simp)
    · split at h
      · exact absurd h (by simp)
      · split at h
        · exact absurd h (by simp)
        · rename_i hres
          split at h
          · split at h
            · exact absurd h (by simp)
            · split at h
              · exact absurd h (by simp)
              · simp only [Except.ok.injEq] at h
                subst h
                exact ⟨rfl, le_of_not_lt hres⟩
          · split at h
            · exact absurd h (by simp)
            · simp only [Except.ok.injEq] at h
              subst h
              exact ⟨rfl, le_of_not_lt hres⟩

/-- C5 witness: at `resolution = 2` construction fails, and the successful
construction from an empty flat buffer at `resolution = 1` satisfies the
upper bound. -/
theorem resolution_upper_bound_only_witness :
    (∃ msg, NoteArray.init (fun _ a => a) none (some []) 0 128 2 = .error msg) ∧
    (({ min_key_index := 0, num_keys := 128, resolution := 1,
        time_steps := 0, array := [] } : NoteArray).resolution = 1 ∧ (1 : ℚ) ≤ 1) :=
  ⟨(resolution_upper_bound_only (fun _ a => a) none (some []) 0 128 2).1 (by norm_num),
   (resolution_upper_bound_only (fun _ a => a) none (some []) 0 128 1).2
     { min_key_index := 0, num_keys := 128, resolution := 1, time_steps := 0, array := [] } rfl⟩

/-- C6: the documented rule "resolution must be 1.0 when a flat array is
given" (`note_array.py` line 29) is not enforced by the code — constructing
from a flat buffer of length 128 with `num_keys = 128` and
`resolution = 1/2 ≠ 1.0` succeeds and returns a `NoteArray` with resolution
`1/2` instead of failing. -/
theorem flat_array_resolution_not_enforced :
    NoteArray.init (fun _ a => a) none (some (List.replicate 128 true)) 0 128 (1/2) =
      .ok { min_key_index := 0, num_keys := 128, resolution := 1/2,
            time_steps := 1, array := List.replicate 128 true } := by
  norm_num [NoteArray.init]

/-- C2 counterexample: resuming a directory whose state record is
`{runIndex: 2, status: running}` does not always yield `runIndex = 3` — when
the loaded configuration's model description carries no
`model_initializer` key, the unconditional `del` at `run.py` line 50 raises
`KeyError` and construction fails instead. -/
theorem resume_not_always_successful :
    run_init_state "/run" (some { run_index := 2, status := "running" })
      { model_description := { model_path := "pretrained.model", model_initializer := none } } =
    .error "KeyError: model_initializer" := rfl

/-- C2 amended: a fresh directory (no state record) always initializes to
`runIndex = 0, status = running`, unconditionally; resuming a directory with
state `{runIndex: n, status: running}` yields, for every configuration whose
model description contains the build-from-scratch directive,
`runIndex = n + 1`, keeps `status = running`, rewrites the model path to the
previous index's prefixed artifact `"n_trained.model"` inside the run
directory, and removes the directive; and for every configuration without
the directive, construction fails with `KeyError` instead. -/
theorem run_init_transitions (path : String) (desc : RunDescription) (n : Nat) :
    run_init_state path none desc = .ok ({ run_index := 0, status := "running" }, desc) ∧
    (∀ ini, desc.model_description.model_initializer = some ini →
      run_init_state path (some { run_index := n, status := "running" }) desc =
        .ok ({ run_index := n + 1, status := "running" },
             { model_description :=
                 { model_path :=
                     get_full_path_from_run_file_name path (toString n ++ "_" ++ "trained.model"),
                   model_initializer := none } })) ∧
    (desc.model_description.model_initializer = none →
      run_init_state path (some { run_index := n, status := "running" }) desc =
        .error "KeyError: model_initializer") := by
  obtain ⟨⟨mp, mi⟩⟩ := desc
  refine ⟨rfl, ?_, ?_⟩
  · intro ini hini
    simp only at hini
    subst hini
    simp [run_init_state, get_previous_run_index_prefixed_path,
      get_index_prepended_file_base_name]
  · intro hnone
    simp only at hnone
    subst hnone
    rfl

/-- C2 witness: a fresh start on a concrete configuration yields index 0; a
concrete resume at `runIndex = 2` with the directive present yields
`runIndex = 3`, status `running`, the model path `"/run/2_trained.model"`
and no directive; the same resume without the directive fails with
`KeyError`. -/
theorem run_init_transitions_witness :
    run_init_state "/run" none
      { model_description := { model_path := "",
                               model_initializer := some { path := "b.py", params := "p" } } } =
      .ok ({ run_index := 0, status := "running" },
           { model_description := { model_path := "",
                                    model_initializer := some { path := "b.py", params := "p" } } }) ∧
    run_init_state "/run" (some { run_index := 2, status := "running" })
      { model_description := { model_path := "",
                               model_initializer := some { path := "b.py", params := "p" } } } =
      .ok ({ run_index := 3, status := "running" },
           { model_description := { model_path := "/run/2_trained.model",
                                    model_initializer := none } }) ∧
    run_init_state "/run" (some { run_index := 2, status := "running" })
      { model_description := { model_path := "frozen.model",
                               model_initializer := none } } =
      .error "KeyError: model_initializer" :=
  ⟨(run_init_transitions "/run"
      { model_description := { model_path := "",
                               model_initializer := some { path := "b.py", params := "p" } } }
      2).1,
   (run_init_transitions "/run"
      { model_description := { model_path := "",
                               model_initializer := some { path := "b.py", params := "p" } } }
      2).2.1 { path := "b.py", params := "p" } rfl,
   (run_init_transitions "/run"
      { model_description := { model_path := "frozen.model", model_initializer := none } }
      2).2.2 rfl⟩

/-- C7 counterexample: the resume transition does not succeed for every
loaded configuration — on a directory with a saved state, a configuration
whose model description has no build-from-scratch directive makes the
discard step (`del run_description['model_description']['model_initializer']`,
`run.py` line 50) raise `KeyError` rather than act as a no-op. -/
theorem resume_discard_step_raises :
    run_init_state "/mydir" (some { run_index := 0, status := "running" })
      { model_description := { model_path := "m0.model", model_initializer := none } } =
    .error "KeyError: model_initializer" := rfl

/-- C7 amended: the resume transition succeeds exactly when the
build-from-scratch directive is present in the model description (and then
removes it); when the directive is absent the discard step fails with
`KeyError`, so resume requires the directive. -/
theorem resume_requires_initializer (path : String) (st : RunState) (desc : RunDescription) :
    (desc.model_description.model_initializer = none →
      run_init_state path (some st) desc = .error "KeyError: model_initializer") ∧
    (∀ ini, desc.model_description.model_initializer = some ini →
      ∃ st' desc', run_init_state path (some st) desc = .ok (st', desc') ∧
        desc'.model_description.model_initializer = none) := by
  obtain ⟨⟨mp, mi⟩⟩ := desc
  constructor
  · intro hnone
    simp only at hnone
    subst hnone
    rfl
  · intro ini hini
    simp only at hini
    subst hini
    exact ⟨_, _, rfl, rfl⟩

/-- C7 witness: with the directive absent the concrete resume fails with
`KeyError`; with it present the concrete resume succeeds and the resulting
configuration no longer contains the directive. -/
theorem resume_requires_initializer_witness :
    (run_init_state "/d" (some { run_index := 1, status := "running" })
      { model_description := { model_path := "x.model", model_initializer := none } } =
      .error "KeyError: model_initializer") ∧
    (∃ st' desc',
      run_init_state "/d" (some { run_index := 1, status := "running" })
        { model_description := { model_path := "",
                                 model_initializer := some { path := "mk.py", params := "q" } } } =
        .ok (st', desc') ∧
      desc'.model_description.model_initializer = none) :=
  ⟨(resume_requires_initializer "/d" { run_index := 1, status := "running" }
      { model_description := { model_path := "x.model", model_initializer := none } }).1 rfl,
   (resume_requires_initializer "/d" { run_index := 1, status := "running" }
      { model_description := { model_path := "",
                               model_initializer := some { path := "mk.py", params := "q" } } }).2
     { path := "mk.py", params := "q" } rfl⟩

/-- C3: a successful `execute` never transitions the status — the state
record's status field is still `"running"`, not `"completed"`, at the end of
a successful run (for any number of snapshot and checkpoint writes), because
no statement in `Run.execute` assigns to `self.state`. -/
theorem execute_never_sets_completed (path : String) (md : ModelDescription)
    (i snapshots checkpoints : Nat) :
    ((run_execute path { run_index := i, status := "running" } md snapshots checkpoints).1).status
      = "running" ∧ ("running" : String) ≠ "completed" :=
  ⟨rfl, by decide⟩

/-- C4 counterexample: not every artifact written during run index 0 carries
the `"0_"` prefix — the composite checkpoint persists the state record at the
fixed, unprefixed path `state.json` (`Run.get_state_path`), which differs
from the index-prefixed name the claim requires. -/
theorem state_record_unprefixed :
    ({ path := get_state_path "/run", kind := "state" } : Artifact) ∈
      execute_artifacts "/run" { run_index := 0, status := "running" }
        { model_path := "prev.model", model_initializer := none } 0 1 ∧
    get_state_path "/run" = "/run/state.json" ∧
    get_state_path "/run" ≠ get_run_index_prefixed_path "/run" 0 "state.json" := by
  refine ⟨?_, rfl, by decide⟩
  simp [execute_artifacts, fetch_model_artifacts, checkpoint_method]

/-- C4 amended: of the artifacts a successful `execute` writes during run
index N, the run-description copy, the initial model, the model snapshots
and the generator cursor carry the `"N_"` prefix, while exactly three are
written at fixed unprefixed names: the state record (`state.json`), the
transient model-build parameters payload (`model_parameters`) and the log
(`output.log`). -/
theorem execute_artifact_naming (path : String) (st : RunState) (md : ModelDescription)
    (snapshots checkpoints : Nat) :
    ∀ a ∈ execute_artifacts path st md snapshots checkpoints,
      (∃ base, a.path = get_run_index_prefixed_path path st.run_index base) ∨
      (a.kind = "state" ∧ a.path = get_state_path path) ∨
      (a.kind = "model_parameters" ∧
        a.path = get_full_path_from_run_file_name path "model_parameters") ∨
      (a.kind = "log" ∧ a.path = get_full_path_from_run_file_name path "output.log") := by
  intro a ha
  simp only [execute_artifacts, checkpoint_method, List.mem_cons, List.mem_append,
    List.mem_replicate, List.mem_flatten] at ha
  rcases ha with rfl | rfl | hfm | ⟨-, rfl⟩ | ⟨l, ⟨-, hleq⟩, hl⟩
  · exact Or.inr (Or.inr (Or.inr ⟨rfl, rfl⟩))
  · exact Or.inl ⟨"run_desciption.json", rfl⟩
  · obtain ⟨mp, mi⟩ := md
    simp only [fetch_model_artifacts] at hfm
    by_cases hmp : mp = ""
    · rw [if_pos hmp] at hfm
      cases mi with
      | none => exact absurd hfm (by simp)
      | some ini =>
        simp only [List.mem_cons, List.not_mem_nil, or_false] at hfm
        rcases hfm with rfl | rfl
        · exact Or.inr (Or.inr (Or.inl ⟨rfl, rfl⟩))
        · exact Or.inl ⟨"initial.model", rfl⟩
    · rw [if_neg hmp] at hfm
      exact absurd hfm (by simp)
  · exact Or.inl ⟨"trained.model", rfl⟩
  · subst hleq
    simp only [List.mem_cons, List.not_mem_nil, or_false] at hl
    rcases hl with rfl | rfl | rfl
    · exact Or.inr (Or.inl ⟨rfl, rfl⟩)
    · exact Or.inl ⟨"trained.model", rfl⟩
    · exact Or.inl ⟨"generator_state.gs", rfl⟩

/-- C4 witness: the naming characterization applied to the concrete
`model_parameters` artifact of a run at index 0 that builds its model from
scratch, with one snapshot and one checkpoint. -/
theorem execute_artifact_naming_witness :
    (∃ base, ({ path := get_full_path_from_run_file_name "/run" "model_parameters",
                kind := "model_parameters" } : Artifact).path =
      get_run_index_prefixed_path "/run" 0 base) ∨
    (({ path := get_full_path_from_run_file_name "/run" "model_parameters",
        kind := "model_parameters" } : Artifact).kind = "state" ∧
     ({ path := get_full_path_from_run_file_name "/run" "model_parameters",
        kind := "model_parameters" } : Artifact).path = get_state_path "/run") ∨
    (({ path := get_full_path_from_run_file_name "/run" "model_parameters",
        kind := "model_parameters" } : Artifact).kind = "model_parameters" ∧
     ({ path := get_full_path_from_run_file_name "/run" "model_parameters",
        kind := "model_parameters" } : Artifact).path =
       get_full_path_from_run_file_name "/run" "model_parameters") ∨
    (({ path := get_full_path_from_run_file_name "/run" "model_parameters",
        kind := "model_parameters" } : Artifact).kind = "log" ∧
     ({ path := get_full_path_from_run_file_name "/run" "model_parameters",
        kind := "model_parameters" } : Artifact).path =
       get_full_path_from_run_file_name "/run" "output.log") :=
  execute_artifact_naming "/run" { run_index := 0, status := "running" }
    { model_path := "", model_initializer := some { path := "b.py", params := "p" } } 1 1
    { path := get_full_path_from_run_file_name "/run" "model_parameters",
      kind := "model_parameters" }
    (by simp [execute_artifacts, fetch_model_artifacts])

end PianoNet
